import Mathlib

/-!
Verification of the dnd-companion external-reference cache-aside pipeline
and character association management, as a shallow embedding of the Python
sources in `src/`.
-/

set_option autoImplicit false
set_option linter.unusedVariables false

namespace DndCompanion

/-! ## Name normalization (src/utils/dnd_api_client.py and src/routes/spells.py) -/

/-- Python's `str.lower()` on the character list of a string (ASCII case
folding, which is all the D&D names use). -/
def pyLower (cs : List Char) : List Char :=
  cs.map Char.toLower

/-- `normalize_name` from `src/utils/dnd_api_client.py`:
`name.lower().replace(" ", "-")`. Replacing the single-character pattern
`" "` by `"-"` is character-wise, so it is embedded as a character map over
the lower-cased string. -/
def normalize_name (name : String) : String :=
  ⟨(pyLower name.data).map (fun c => if c = ' ' then '-' else c)⟩

/-- Whether `c` matches the character class `[a-z0-9]` of the regex in
`_normalize_spell_name` (applied after `.lower()`). -/
def isLowerAlnum (c : Char) : Bool :=
  (97 ≤ c.toNat && c.toNat ≤ 122) || (48 ≤ c.toNat && c.toNat ≤ 57)

/-- One left-to-right pass implementing `re.sub(r'[^a-z0-9]+', '-', s)`:
each maximal run of characters outside `[a-z0-9]` becomes a single `'-'`.
The boolean accumulator records whether the previous character was part of
such a run (so the run contributes only one hyphen). -/
def subRuns (cs : List Char) : List Char :=
  (cs.foldl
    (fun (acc : List Char × Bool) c =>
      if isLowerAlnum c then (c :: acc.1, false)
      else if acc.2 then acc
      else ('-' :: acc.1, true))
    ([], false)).1.reverse

/-- Python's `.strip('-')`: drop hyphens from both ends. -/
def stripDash (cs : List Char) : List Char :=
  ((cs.dropWhile (fun c => c == '-')).reverse.dropWhile (fun c => c == '-')).reverse

/-- `_normalize_spell_name` from `src/routes/spells.py` (identical to
`_normalize_item_name` in `src/routes/items.py`):
`re.sub(r'[^a-z0-9]+', '-', name.lower()).strip('-')`. -/
def _normalize_spell_name (name : String) : String :=
  ⟨stripDash (subRuns (pyLower name.data))⟩

/-! ## Remote-fetch URL construction -/

/-- The URL built by `fetch_spell_details_from_dnd_api` in
`src/routes/spells.py`. The source line is
`url = "https://www.dnd5eapi.co/api/spells/{spell_index}"` — a plain string
literal without the `f` prefix, so the placeholder is never interpolated and
the function requests this constant URL whatever `spell_index` is. -/
def spell_fetch_url (spell_index : String) : String :=
  "https://www.dnd5eapi.co/api/spells/\x7bspell_index\x7d"

/-- The URL built by `fetch_item_details_from_dnd_api` in
`src/routes/items.py`: `f"https://www.dnd5eapi.co/api/equipment/{item_index}"`
(a real f-string, interpolated). -/
def item_fetch_url (item_index : String) : String :=
  "https://www.dnd5eapi.co/api/equipment/" ++ item_index

/-- The URL built by `fetch_details_from_dnd_api` in
`src/utils/dnd_api_client.py`:
`f"https://www.dnd5eapi.co/api/{endpoint}/{name_normalized}"`. -/
def fetch_url (endpoint name_normalized : String) : String :=
  "https://www.dnd5eapi.co/api/" ++ endpoint ++ "/" ++ name_normalized

/-! ## Data model (src/models/db_models.py) -/

/-- A cached reference entry (the common shape of the `Spell` and `Item`
rows handled by `get_or_create_api_object`): local primary id, the unique
`dnd_api_id` slug, bilingual names and descriptions, plus the kind-specific
columns contributed by the route's `extra_fields_factory`
(level, casting_time, ... for spells), modelled as a key/value list. -/
structure ApiEntry where
  id : Nat
  dnd_api_id : String
  name_en : String
  name_de : String
  description_en : String
  description_de : String
  extra : List (String × String)
deriving Repr, DecidableEq

/-- The raw JSON payload returned by the D&D 5e API for a detail fetch
(fields used by the routes; see spec section 6). -/
structure ApiPayload where
  index : String
  name : String
  desc : List String
  higher_level : List String
  level : Nat
  casting_time : String
  range : String
  components : List String
  duration : String
  school : String
deriving Repr, DecidableEq

/-! ## Remote client and translator (src/utils/dnd_api_client.py) -/

/-- Outcome of the HTTP GET performed by `fetch_details_from_dnd_api`,
as seen through the `requests` library: a 2xx JSON payload, a non-2xx
status (raised by `raise_for_status` as `HTTPError`), or a non-HTTP
network failure (`RequestException`), carrying the exception text. -/
inductive RemoteResponse where
  | ok (payload : ApiPayload)
  | httpStatus (status : Nat) (msg : String)
  | netError (msg : String)
deriving Repr, DecidableEq

/-- The error payload produced by `raise_api_error` in
`src/utils/errors.py`: an HTTP status plus the
`{"error": {"code": ..., "message": ...}}` detail. -/
structure ApiError where
  status : Nat
  code : String
  message : String
deriving Repr, DecidableEq

/-- How a call through the resolver can fail, as the Python exceptions
propagate: a structured `raise_api_error`, an uncaught re-raised
`requests` `HTTPError` (the `raise e` branch of
`fetch_details_from_dnd_api` for non-404 statuses), or the uncaught
`IntegrityError` raised by the database's UNIQUE constraint on
`dnd_api_id` when `DndApiObjectRepository.save` commits a duplicate. -/
inductive ResolveError where
  | api (e : ApiError)
  | httpError (status : Nat)
  | integrity
deriving Repr, DecidableEq

/-- `fetch_details_from_dnd_api` from `src/utils/dnd_api_client.py`,
with the wire response passed in as an oracle: 200 returns the payload,
404 returns `None`, another HTTP status re-raises the `HTTPError`, and a
network error raises `raise_api_error(503, "SERVICE_UNAVAILABLE", ...)`. -/
def fetch_details_from_dnd_api (endpoint name_normalized : String)
    (wire : RemoteResponse) : Except ResolveError (Option ApiPayload) :=
  let _url := fetch_url endpoint name_normalized
  match wire with
  | .ok payload => .ok (some payload)
  | .httpStatus s _ =>
      if s = 404 then .ok none else .error (.httpError s)
  | .netError msg =>
      .error (.api ⟨503, "SERVICE_UNAVAILABLE", "Error fetching from D&D API: " ++ msg⟩)

/-- Outcome of one DeepL HTTP request, as seen by
`translate_text_with_deepl`: a translated text, or a
`requests.RequestException`. -/
inductive DeeplResponse where
  | ok (text : String)
  | reqError
deriving Repr, DecidableEq

/-- `translate_text_with_deepl` from `src/utils/dnd_api_client.py`.
`hasKey` is whether the module-level `DEEPL_API_KEY` is set; `svc` is the
outcome of the DeepL request. With no key or empty text the function
returns the placeholder "Übersetzung nicht verfügbar."; on a request
error it returns "Übersetzung fehlgeschlagen."; it never raises. -/
def translate_text_with_deepl (hasKey : Bool) (svc : DeeplResponse)
    (text : String) (_target_lang : String) : String :=
  if !hasKey || text = "" then "Übersetzung nicht verfügbar."
  else
    match svc with
    | .ok t => t
    | .reqError => "Übersetzung fehlgeschlagen."

/-! ## Reference Store (src/backend/repositories/dnd_api_repository.py) -/

/-- The primary-key value the database assigns to a freshly inserted row
(autoincrement: one more than the largest id in the table). -/
def nextId (store : List ApiEntry) : Nat :=
  (store.map (fun e => e.id)).foldr max 0 + 1

/-- `DndApiObjectRepository.save`: `db.add(db_obj); db.commit();
db.refresh(db_obj)`. The Python body has no duplicate handling; the
`.error` branch models the UNIQUE constraint on `dnd_api_id`
(`src/models/db_models.py`) making the commit raise `IntegrityError`.
On success the committed row (with its assigned id) is appended. -/
def save (store : List ApiEntry) (db_obj : ApiEntry) :
    Except ResolveError (List ApiEntry × ApiEntry) :=
  if store.any (fun e => e.dnd_api_id == db_obj.dnd_api_id) then
    .error .integrity
  else
    let saved := { db_obj with id := nextId store }
    .ok (store ++ [saved], saved)

/-- `DndApiObjectRepository.get_by_dnd_api_id`: first row whose
`dnd_api_id` equals the argument. -/
def get_by_dnd_api_id (store : List ApiEntry) (dnd_api_id : String) :
    Option ApiEntry :=
  store.find? (fun e => e.dnd_api_id == dnd_api_id)

/-! ## The cache-aside resolver (src/routes/helpers.py) -/

/-- `APIObjectConfig` from `src/routes/helpers.py`: the repository is the
store itself in this embedding, `model_name` is `model_class.__name__`. -/
structure APIObjectConfig where
  model_name : String
  api_endpoint : String
  extra_fields_factory : Option (ApiPayload → List (String × String))

/-- Result of one resolver call: the returned entry or the propagated
exception, the store contents after the call, and how many remote-API
requests and DeepL requests the call issued. -/
structure ResolveOutcome where
  result : Except ResolveError ApiEntry
  store : List ApiEntry
  remoteCalls : Nat
  translateCalls : Nat
deriving Repr

/-- `get_or_create_api_object` from `src/routes/helpers.py`, with the
store read at its two access points passed separately: `storeAtLookup` is
the table as seen by `get_by_dnd_api_id`, `storeAtSave` the table as seen
by `save`'s commit. A concurrent resolver may insert between the two; the
sequential, race-free call is `get_or_create_api_object` below, which
uses the same snapshot for both. External effects (the D&D API response
and the two DeepL responses) are oracles. -/
def get_or_create_core (storeAtLookup storeAtSave : List ApiEntry)
    (wire : RemoteResponse) (hasKey : Bool) (nameSvc descSvc : DeeplResponse)
    (request_name : String) (config : APIObjectConfig) : ResolveOutcome :=
  let normalized_name := normalize_name request_name
  match get_by_dnd_api_id storeAtLookup normalized_name with
  | some existing_obj => ⟨.ok existing_obj, storeAtSave, 0, 0⟩
  | none =>
    match fetch_details_from_dnd_api config.api_endpoint normalized_name wire with
    | .error e => ⟨.error e, storeAtSave, 1, 0⟩
    | .ok none =>
        ⟨.error (.api ⟨404, config.model_name.toUpper ++ "_NOT_FOUND",
            config.model_name ++ " nicht in der D&D 5e API gefunden."⟩),
          storeAtSave, 1, 0⟩
    | .ok (some api_data) =>
      let name_en := api_data.name
      let description_en := String.intercalate "\n" api_data.desc
      let name_de := translate_text_with_deepl hasKey nameSvc name_en "de"
      let description_de := translate_text_with_deepl hasKey descSvc description_en "de"
      let new_db_obj : ApiEntry :=
        { id := 0
          dnd_api_id := api_data.index
          name_en := name_en
          name_de := name_de
          description_en := description_en
          description_de := description_de
          extra := match config.extra_fields_factory with
                   | some f => f api_data
                   | none => [] }
      match save storeAtSave new_db_obj with
      | .ok (store2, saved) => ⟨.ok saved, store2, 1, 2⟩
      | .error e => ⟨.error e, storeAtSave, 1, 2⟩

/-- `get_or_create_api_object` without interference: both store accesses
see the same snapshot. -/
def get_or_create_api_object (store : List ApiEntry)
    (wire : RemoteResponse) (hasKey : Bool) (nameSvc descSvc : DeeplResponse)
    (request_name : String) (config : APIObjectConfig) : ResolveOutcome :=
  get_or_create_core store store wire hasKey nameSvc descSvc request_name config

/-- The row `get_or_create_api_object` constructs and commits on a
successful miss (the `new_db_obj` of src/routes/helpers.py after `save`
assigned its primary id), factored out so theorems can name it. -/
def mkEntry (store : List ApiEntry) (payload : ApiPayload) (hasKey : Bool)
    (nameSvc descSvc : DeeplResponse) (config : APIObjectConfig) : ApiEntry :=
  { id := nextId store
    dnd_api_id := payload.index
    name_en := payload.name
    name_de := translate_text_with_deepl hasKey nameSvc payload.name "de"
    description_en := String.intercalate "\n" payload.desc
    description_de := translate_text_with_deepl hasKey descSvc
      (String.intercalate "\n" payload.desc) "de"
    extra := match config.extra_fields_factory with
             | some f => f payload
             | none => [] }

/-! ## Spell description assembly (src/routes/spells.py, create_spell_from_api) -/

/-- Lines 106–115 of `src/routes/spells.py` inside `create_spell_from_api`:
`description_en = "\n".join(api_data.get("desc", []))`, its translation,
and — when the joined `higher_level` text is truthy — the addendum appended
to both descriptions under the headings `"Higher Levels:"` and
`"HÃ¶here Grade:"` (the literal mojibake bytes of the source file), the
German addendum obtained by a separate `translate_text_with_deepl` call on
the higher-level source text. The route's DeepL translator is the oracle
`tr`. Returns `(description_en, description_de)` as stored in the new
`Spell` row. -/
def create_spell_descriptions (tr : String → String) (api_data : ApiPayload) :
    String × String :=
  let description_en := String.intercalate "\n" api_data.desc
  let description_de := tr description_en
  let higher_level_desc_en := String.intercalate "\n" api_data.higher_level
  if higher_level_desc_en ≠ "" then
    (description_en ++ "\n\nHigher Levels:\n" ++ higher_level_desc_en,
     description_de ++ "\n\nHÃ¶here Grade:\n" ++ tr higher_level_desc_en)
  else
    (description_en, description_de)

/-! ## Character-association manager (src/backend/routes/characters.py) -/

/-- A `characters` row: the columns the association manager reads. -/
structure Character where
  id : Nat
  user_id : Nat
deriving Repr, DecidableEq

/-- The database tables touched by the character routes: characters,
the spell and item reference rows (by local id), and the two association
tables as lists of `(character_id, reference_id)` pairs. -/
structure AppState where
  characters : List Character
  spells : List Nat
  items : List Nat
  character_spells : List (Nat × Nat)
  character_items : List (Nat × Nat)
deriving Repr, DecidableEq

/-- `CharacterRepository.get_by_id_and_user`
(src/repositories/character_repository.py): the row with matching id AND
matching owner, in one filter — there is no ownership check separate from
existence. -/
def get_by_id_and_user (st : AppState) (character_id user_id : Nat) :
    Option Character :=
  st.characters.find? (fun c => c.id == character_id && c.user_id == user_id)

/-- The single error raised by `get_character_for_user` when the combined
lookup misses, whether the character is absent or owned by someone else. -/
def characterNotFoundError : ApiError :=
  ⟨404, "CHARACTER_NOT_FOUND", "Charakter nicht gefunden oder gehört nicht zum Benutzer."⟩

/-- `get_character_for_user` from `src/backend/routes/characters.py`:
look up by (id, owner); on a miss raise
`raise_api_error(404, "CHARACTER_NOT_FOUND", ...)`. -/
def get_character_for_user (st : AppState) (character_id user_id : Nat) :
    Except ApiError Character :=
  match get_by_id_and_user st character_id user_id with
  | some c => .ok c
  | none => .error characterNotFoundError

/-- The `GET /characters/{character_id}` route: returns the character the
`get_character_for_user` dependency produced, or its error. -/
def get_character (st : AppState) (character_id user_id : Nat) :
    Except ApiError Character :=
  get_character_for_user st character_id user_id

/-- `add_spell_to_character` from `src/backend/routes/characters.py`:
dependencies run in order (character, then spell); a duplicate pair raises
409 `SPELL_ALREADY_EXISTS`; otherwise
`CharacterRepository.add_spell_to_character` inserts the pair row. The
route returns the refreshed character; the embedding returns the updated
tables. -/
def add_spell_to_character (st : AppState) (character_id user_id spell_id : Nat) :
    Except ApiError AppState :=
  match get_by_id_and_user st character_id user_id with
  | none => .error characterNotFoundError
  | some _ =>
    if !(st.spells.contains spell_id) then
      .error ⟨404, "SPELL_NOT_FOUND", "Zauber nicht gefunden."⟩
    else if st.character_spells.contains (character_id, spell_id) then
      .error ⟨409, "SPELL_ALREADY_EXISTS", "Zauber ist bereits mit dem Charakter verbunden."⟩
    else
      .ok { st with character_spells := st.character_spells ++ [(character_id, spell_id)] }

/-- `remove_spell_from_character` from `src/backend/routes/characters.py`:
character precondition, then `get_spell_association`; a missing pair raises
404 (`"Zauber nicht gefunden oder nicht mit Charakter verbunden."`);
otherwise the pair row is deleted. -/
def remove_spell_from_character (st : AppState) (character_id user_id spell_id : Nat) :
    Except ApiError AppState :=
  match get_by_id_and_user st character_id user_id with
  | none => .error characterNotFoundError
  | some _ =>
    if !(st.character_spells.contains (character_id, spell_id)) then
      .error ⟨404, "SPELL_NOT_FOUND", "Zauber nicht gefunden oder nicht mit Charakter verbunden."⟩
    else
      .ok { st with character_spells := st.character_spells.erase (character_id, spell_id) }

/-- `add_item_to_character` from `src/backend/routes/characters.py`,
mirroring the spell route with `ITEM_NOT_FOUND` / 409 `ITEM_ALREADY_EXISTS`. -/
def add_item_to_character (st : AppState) (character_id user_id item_id : Nat) :
    Except ApiError AppState :=
  match get_by_id_and_user st character_id user_id with
  | none => .error characterNotFoundError
  | some _ =>
    if !(st.items.contains item_id) then
      .error ⟨404, "ITEM_NOT_FOUND", "Item nicht gefunden."⟩
    else if st.character_items.contains (character_id, item_id) then
      .error ⟨409, "ITEM_ALREADY_EXISTS", "Item ist bereits mit dem Charakter verbunden."⟩
    else
      .ok { st with character_items := st.character_items ++ [(character_id, item_id)] }

/-- `remove_item_from_character` from `src/backend/routes/characters.py`. -/
def remove_item_from_character (st : AppState) (character_id user_id item_id : Nat) :
    Except ApiError AppState :=
  match get_by_id_and_user st character_id user_id with
  | none => .error characterNotFoundError
  | some _ =>
    if !(st.character_items.contains (character_id, item_id)) then
      .error ⟨404, "ITEM_NOT_FOUND", "Item nicht gefunden oder nicht mit Charakter verbunden."⟩
    else
      .ok { st with character_items := st.character_items.erase (character_id, item_id) }

/-! ## List-all endpoints (src/routes/spells.py, items.py, characters.py) -/

/-- A FastAPI `HTTPException` as raised directly by the `src/routes`
variants: status code plus detail string. -/
structure HttpError where
  status : Nat
  detail : String
deriving Repr, DecidableEq

/-- `get_all_spells` from `src/routes/spells.py`: query all spell rows;
if the list is falsy raise `HTTPException(204, "No spells found.")`. -/
def get_all_spells (spells_from_db : List ApiEntry) :
    Except HttpError (List ApiEntry) :=
  if spells_from_db.isEmpty then .error ⟨204, "No spells found."⟩
  else .ok spells_from_db

/-- `get_all_items` from `src/routes/items.py`. -/
def get_all_items (items_from_db : List ApiEntry) :
    Except HttpError (List ApiEntry) :=
  if items_from_db.isEmpty then .error ⟨204, "No items found."⟩
  else .ok items_from_db

/-- `get_all_characters` from `src/routes/characters.py`: the current
user's characters; if none, raise `HTTPException(204, ...)`. The per-row
response projection (a one-to-one map to `CharacterResponse`) preserves
the list and is elided. -/
def get_all_characters (store : List Character) (user_id : Nat) :
    Except HttpError (List Character) :=
  let characters := store.filter (fun c => c.user_id == user_id)
  if characters.isEmpty then
    .error ⟨204, "No characters found for this user."⟩
  else .ok characters

/-! ## Helper lemmas -/

/-- Erasing a pair just appended removes exactly that row when the pair was
not present before. -/
theorem erase_append_singleton (l : List (Nat × Nat)) (a : Nat × Nat)
    (h : l.contains a = false) : (l ++ [a]).erase a = l := by
  rw [List.erase_append_right]
  · simp
  · simpa using h

/-- A failed `find?` over the probed rows means `any` fails as well, i.e.
the UNIQUE-constraint check of `save` passes. -/
theorem any_eq_false_of_find?_eq_none (l : List ApiEntry) (p : ApiEntry → Bool)
    (h : l.find? p = none) : l.any p = false := by
  simp only [List.find?_eq_none] at h
  simp only [List.any_eq_false]
  intro x hx
  exact fun hp => h x hx hp

/-- The miss path with a 200 payload and a passing uniqueness check
commits exactly the constructed row and returns it. -/
theorem get_or_create_miss_success
    (store : List ApiEntry) (payload : ApiPayload) (hasKey : Bool)
    (nameSvc descSvc : DeeplResponse) (request_name : String)
    (config : APIObjectConfig)
    (hmiss : get_by_dnd_api_id store (normalize_name request_name) = none)
    (hany : store.any (fun e => e.dnd_api_id == payload.index) = false) :
    get_or_create_api_object store (.ok payload) hasKey nameSvc descSvc
      request_name config =
      ⟨.ok (mkEntry store payload hasKey nameSvc descSvc config),
       store ++ [mkEntry store payload hasKey nameSvc descSvc config], 1, 2⟩ := by
  simp only [get_or_create_api_object, get_or_create_core]
  rw [hmiss]
  simp only [fetch_details_from_dnd_api, save, hany]
  rfl

/-! ## Claims -/

/-- C1: for every reference kind and every requested name whose normalized
form already identifies a row in the Reference Store, the resolver returns
that existing row itself (hence the same local id), issues no remote-API
request and no DeepL request, and leaves the store contents unchanged. -/
theorem C1_hit_returns_cached_without_effects
    (store : List ApiEntry) (wire : RemoteResponse) (hasKey : Bool)
    (nameSvc descSvc : DeeplResponse) (request_name : String)
    (config : APIObjectConfig) (entry : ApiEntry)
    (h : get_by_dnd_api_id store (normalize_name request_name) = some entry) :
    get_or_create_api_object store wire hasKey nameSvc descSvc request_name config =
      ⟨.ok entry, store, 0, 0⟩ := by
  simp only [get_or_create_api_object, get_or_create_core]
  rw [h]

/-- Witness for C1 at a concrete store and request. -/
theorem C1_hit_returns_cached_without_effects_witness :
    get_or_create_api_object
      [⟨1, "fire-bolt", "Fire Bolt", "Feuerblitz", "d", "b", []⟩]
      (.netError "down") true (.ok "x") (.ok "y") "Fire Bolt"
      ⟨"Spell", "spells", none⟩ =
      ⟨.ok ⟨1, "fire-bolt", "Fire Bolt", "Feuerblitz", "d", "b", []⟩,
       [⟨1, "fire-bolt", "Fire Bolt", "Feuerblitz", "d", "b", []⟩], 0, 0⟩ :=
  C1_hit_returns_cached_without_effects _ _ _ _ _ _ _ _ (by rfl)

/-- C2 fails on the code: in the race configuration (empty store at lookup
time, a concurrent row with the same external id committed by save time),
`get_or_create_api_object` propagates the duplicate-key `IntegrityError`
instead of re-reading and returning the existing row. -/
theorem C2_race_counterexample :
    get_or_create_core []
      [⟨1, "fire-bolt", "Fire Bolt", "Feuerblitz", "d", "b", []⟩]
      (.ok ⟨"fire-bolt", "Fire Bolt", ["A flame."], [], 0, "1 action",
        "120 feet", ["V", "S"], "Instantaneous", "Evocation"⟩)
      true (.ok "Feuerblitz") (.ok "Eine Flamme.") "fire bolt"
      ⟨"Spell", "spells", none⟩ =
      ⟨.error .integrity,
       [⟨1, "fire-bolt", "Fire Bolt", "Feuerblitz", "d", "b", []⟩], 1, 2⟩ ∧
    (Except.error ResolveError.integrity : Except ResolveError ApiEntry) ≠
      .ok ⟨1, "fire-bolt", "Fire Bolt", "Feuerblitz", "d", "b", []⟩ :=
  ⟨rfl, fun h => Except.noConfusion h⟩

/-- C2 amended: when a raced miss-path resolution hits the duplicate-key
failure from the store's create, the resolver does not convert it into a
fresh lookup — the `IntegrityError` propagates to the caller — and the
losing call leaves the store exactly as the winner committed it, so the
winner's row with that external id is the only effect of the race. -/
theorem C2_duplicate_key_error_propagates
    (storeAtLookup storeAtSave : List ApiEntry) (payload : ApiPayload)
    (hasKey : Bool) (nameSvc descSvc : DeeplResponse) (request_name : String)
    (config : APIObjectConfig)
    (hmiss : get_by_dnd_api_id storeAtLookup (normalize_name request_name) = none)
    (hdup : storeAtSave.any (fun e => e.dnd_api_id == payload.index) = true) :
    get_or_create_core storeAtLookup storeAtSave (.ok payload)
      hasKey nameSvc descSvc request_name config =
      ⟨.error .integrity, storeAtSave, 1, 2⟩ := by
  simp only [get_or_create_core]
  rw [hmiss]
  simp only [fetch_details_from_dnd_api, save, hdup]
  rfl

/-- Witness for the amended C2 at a concrete race. -/
theorem C2_duplicate_key_error_propagates_witness :
    get_or_create_core []
      [⟨1, "fire-bolt", "Fire Bolt", "Feuerblitz", "d", "b", []⟩]
      (.ok ⟨"fire-bolt", "Fire Bolt", ["A flame."], [], 0, "1 action",
        "120 feet", ["V", "S"], "Instantaneous", "Evocation"⟩)
      false (.ok "x") (.ok "y") "Fire Bolt" ⟨"Spell", "spells", none⟩ =
      ⟨.error .integrity,
       [⟨1, "fire-bolt", "Fire Bolt", "Feuerblitz", "d", "b", []⟩], 1, 2⟩ :=
  C2_duplicate_key_error_propagates _ _ _ _ _ _ _ _ (by rfl) (by rfl)

/-- C3 fails on the code for the normalizer the shared resolver actually
uses: `normalize_name` (src/utils/dnd_api_client.py) only lower-cases and
replaces each space by a hyphen, so a run of spaces is not collapsed and
`normalize_name "FIRE   BOLT" ≠ normalize_name "fire-bolt"`. -/
theorem C3_normalize_name_counterexample :
    normalize_name "FIRE   BOLT" = "fire---bolt" ∧
    normalize_name "fire-bolt" = "fire-bolt" ∧
    normalize_name "FIRE   BOLT" ≠ normalize_name "fire-bolt" := by
  refine ⟨by decide, by decide, by decide⟩

/-- C3 amended: the regex-based normalizer `_normalize_spell_name` of
src/routes/spells.py (identical to `_normalize_item_name`) does lower-case,
collapse every run of non-alphanumerics to a single hyphen and trim, so all
three spec variants map to "fire-bolt"; the simpler `normalize_name` used
by the shared resolver agrees only on variants that differ in casing or in
single space vs. hyphen, mapping "FIRE   BOLT" to "fire---bolt" instead. -/
theorem C3_normalization_amended :
    _normalize_spell_name "Fire Bolt" = "fire-bolt" ∧
    _normalize_spell_name "fire-bolt" = "fire-bolt" ∧
    _normalize_spell_name "FIRE   BOLT" = "fire-bolt" ∧
    normalize_name "Fire Bolt" = "fire-bolt" ∧
    normalize_name "fire-bolt" = "fire-bolt" ∧
    normalize_name "FIRE   BOLT" = "fire---bolt" := by
  refine ⟨by decide, by decide, by decide, by decide, by decide, by decide⟩

/-- C8: the spell route's fetch URL is broken. The source line in
`src/routes/spells.py` lacks the `f` prefix, so
`fetch_spell_details_from_dnd_api` requests the constant literal
`https://www.dnd5eapi.co/api/spells/{spell_index}` for every input instead
of embedding the normalized external id — unlike the items route and the
shared client in `src/utils/dnd_api_client.py`, whose URLs do embed it. -/
theorem C8_spell_fetch_url_never_interpolated :
    spell_fetch_url "fire-bolt" =
      "https://www.dnd5eapi.co/api/spells/\x7bspell_index\x7d" ∧
    spell_fetch_url "fire-bolt" ≠ "https://www.dnd5eapi.co/api/spells/fire-bolt" ∧
    spell_fetch_url "fire-bolt" = spell_fetch_url "acid-arrow" ∧
    fetch_url "spells" "fire-bolt" = "https://www.dnd5eapi.co/api/spells/fire-bolt" ∧
    item_fetch_url "club" = "https://www.dnd5eapi.co/api/equipment/club" := by
  refine ⟨by decide, by decide, by decide, by decide, by decide⟩

/-- C4: for a character owned by the requester and an existing reference
entry (spell and item alike): the first add of an absent pair succeeds and
inserts exactly that pair row; a second add of the same pair fails with the
409 conflict (`SPELL_ALREADY_EXISTS` / `ITEM_ALREADY_EXISTS`); removing the
existing pair succeeds and deletes exactly that row (restoring the original
tables); a second remove fails with the 404 raised when no association row
matches (the spec's `AssociationNotFound`, surfaced with code
`SPELL_NOT_FOUND` / `ITEM_NOT_FOUND` and the "nicht mit Charakter
verbunden" message). -/
theorem C4_association_add_remove_lifecycle
    (st : AppState) (cid uid sid iid : Nat) (c : Character)
    (hchar : get_by_id_and_user st cid uid = some c)
    (hspell : st.spells.contains sid = true)
    (hitem : st.items.contains iid = true)
    (hs_new : st.character_spells.contains (cid, sid) = false)
    (hi_new : st.character_items.contains (cid, iid) = false) :
    add_spell_to_character st cid uid sid =
      .ok { st with character_spells := st.character_spells ++ [(cid, sid)] } ∧
    add_spell_to_character
      { st with character_spells := st.character_spells ++ [(cid, sid)] } cid uid sid =
      .error ⟨409, "SPELL_ALREADY_EXISTS",
        "Zauber ist bereits mit dem Charakter verbunden."⟩ ∧
    remove_spell_from_character
      { st with character_spells := st.character_spells ++ [(cid, sid)] } cid uid sid =
      .ok st ∧
    remove_spell_from_character st cid uid sid =
      .error ⟨404, "SPELL_NOT_FOUND",
        "Zauber nicht gefunden oder nicht mit Charakter verbunden."⟩ ∧
    add_item_to_character st cid uid iid =
      .ok { st with character_items := st.character_items ++ [(cid, iid)] } ∧
    add_item_to_character
      { st with character_items := st.character_items ++ [(cid, iid)] } cid uid iid =
      .error ⟨409, "ITEM_ALREADY_EXISTS",
        "Item ist bereits mit dem Charakter verbunden."⟩ ∧
    remove_item_from_character
      { st with character_items := st.character_items ++ [(cid, iid)] } cid uid iid =
      .ok st ∧
    remove_item_from_character st cid uid iid =
      .error ⟨404, "ITEM_NOT_FOUND",
        "Item nicht gefunden oder nicht mit Charakter verbunden."⟩ := by
  simp only [get_by_id_and_user] at hchar
  have hspell' : sid ∈ st.spells := by simpa using hspell
  have hitem' : iid ∈ st.items := by simpa using hitem
  have hs_new' : (cid, sid) ∉ st.character_spells := by simpa using hs_new
  have hi_new' : (cid, iid) ∉ st.character_items := by simpa using hi_new
  refine ⟨?_, ?_, ?_, ?_, ?_, ?_, ?_, ?_⟩
  · simp only [add_spell_to_character, get_by_id_and_user]
    simp [hchar, hspell', hs_new']
  · simp only [add_spell_to_character, get_by_id_and_user]
    simp [hchar, hspell']
  · simp only [remove_spell_from_character, get_by_id_and_user]
    simp [hchar, erase_append_singleton _ _ hs_new]
  · simp only [remove_spell_from_character, get_by_id_and_user]
    simp [hchar, hs_new']
  · simp only [add_item_to_character, get_by_id_and_user]
    simp [hchar, hitem', hi_new']
  · simp only [add_item_to_character, get_by_id_and_user]
    simp [hchar, hitem']
  · simp only [remove_item_from_character, get_by_id_and_user]
    simp [hchar, erase_append_singleton _ _ hi_new]
  · simp only [remove_item_from_character, get_by_id_and_user]
    simp [hchar, hi_new']

/-- Witness for C4 at a concrete owned character, spell and item. -/
theorem C4_association_add_remove_lifecycle_witness :
    add_spell_to_character ⟨[⟨1, 10⟩], [5], [6], [], []⟩ 1 10 5 =
      .ok ⟨[⟨1, 10⟩], [5], [6], [(1, 5)], []⟩ ∧
    add_spell_to_character ⟨[⟨1, 10⟩], [5], [6], [(1, 5)], []⟩ 1 10 5 =
      .error ⟨409, "SPELL_ALREADY_EXISTS",
        "Zauber ist bereits mit dem Charakter verbunden."⟩ ∧
    remove_spell_from_character ⟨[⟨1, 10⟩], [5], [6], [(1, 5)], []⟩ 1 10 5 =
      .ok ⟨[⟨1, 10⟩], [5], [6], [], []⟩ ∧
    remove_spell_from_character ⟨[⟨1, 10⟩], [5], [6], [], []⟩ 1 10 5 =
      .error ⟨404, "SPELL_NOT_FOUND",
        "Zauber nicht gefunden oder nicht mit Charakter verbunden."⟩ :=
  have h := C4_association_add_remove_lifecycle ⟨[⟨1, 10⟩], [5], [6], [], []⟩
    1 10 5 6 ⟨1, 10⟩ (by rfl) (by decide) (by decide) (by decide) (by decide)
  ⟨h.1, h.2.1, h.2.2.1, h.2.2.2.1⟩

/-- C5: when the combined (id, owner) lookup misses — whether because no
character with that id exists or because it belongs to another user — get,
add and remove all fail with the one constant `CHARACTER_NOT_FOUND` error.
Because the error value is a constant independent of the state, no caller
can distinguish the two causes from the response. -/
theorem C5_absent_and_foreign_owner_indistinguishable
    (st : AppState) (cid uid sid iid : Nat)
    (h : ∀ c ∈ st.characters, ¬(c.id = cid ∧ c.user_id = uid)) :
    get_character st cid uid = .error characterNotFoundError ∧
    add_spell_to_character st cid uid sid = .error characterNotFoundError ∧
    remove_spell_from_character st cid uid sid = .error characterNotFoundError ∧
    add_item_to_character st cid uid iid = .error characterNotFoundError ∧
    remove_item_from_character st cid uid iid = .error characterNotFoundError := by
  have hf : get_by_id_and_user st cid uid = none := by
    simp only [get_by_id_and_user, List.find?_eq_none]
    intro c hc
    simpa using h c hc
  refine ⟨?_, ?_, ?_, ?_, ?_⟩ <;>
    simp [get_character, get_character_for_user, add_spell_to_character,
      remove_spell_from_character, add_item_to_character,
      remove_item_from_character, hf]

/-- Witness for C5: a state with no character 7 at all and a state where
character 7 belongs to user 99 give requester 10 the identical error. -/
theorem C5_absent_and_foreign_owner_indistinguishable_witness :
    get_character ⟨[], [], [], [], []⟩ 7 10 = .error characterNotFoundError ∧
    get_character ⟨[⟨7, 99⟩], [], [], [], []⟩ 7 10 = .error characterNotFoundError :=
  ⟨(C5_absent_and_foreign_owner_indistinguishable
      ⟨[], [], [], [], []⟩ 7 10 0 0 (by decide)).1,
   (C5_absent_and_foreign_owner_indistinguishable
      ⟨[⟨7, 99⟩], [], [], [], []⟩ 7 10 0 0 (by decide)).1⟩

/-- C6 fails on the code: the persisted `dnd_api_id` is the payload's
`index` field (`api_data.get("index")`), not the normalized request name.
With a remote payload whose index differs from the queried slug, the row is
stored under "acid-arrow" although normalize("Fire Bolt") = "fire-bolt". -/
theorem C6_external_id_counterexample :
    (get_or_create_api_object []
      (.ok ⟨"acid-arrow", "Acid Arrow", ["x"], [], 2, "1 action", "90 feet",
        [], "Instantaneous", "Evocation"⟩)
      true (.ok "Säurepfeil") (.ok "y") "Fire Bolt"
      ⟨"Spell", "spells", none⟩).store.map (fun e => e.dnd_api_id) =
      ["acid-arrow"] ∧
    ("acid-arrow" : String) ≠ normalize_name "Fire Bolt" :=
  ⟨rfl, by decide⟩

/-- C6 amended: the persisted external id equals the payload's `index`;
whenever the remote echoes the queried slug (index = normalized name, as
the D&D 5e API does for detail fetches), the stored external id equals the
normalized request name, and any later request whose name normalizes the
same is a cache hit returning the same row with no remote or translation
call. -/
theorem C6_external_id_echo_gives_cache_hit
    (store : List ApiEntry) (payload : ApiPayload) (hasKey : Bool)
    (nameSvc descSvc : DeeplResponse) (request_name name2 : String)
    (config : APIObjectConfig)
    (hmiss : get_by_dnd_api_id store (normalize_name request_name) = none)
    (hecho : payload.index = normalize_name request_name)
    (hsame : normalize_name name2 = normalize_name request_name) :
    get_or_create_api_object store (.ok payload) hasKey nameSvc descSvc
      request_name config =
      ⟨.ok (mkEntry store payload hasKey nameSvc descSvc config),
       store ++ [mkEntry store payload hasKey nameSvc descSvc config], 1, 2⟩ ∧
    (mkEntry store payload hasKey nameSvc descSvc config).dnd_api_id =
      normalize_name request_name ∧
    ∀ (wire2 : RemoteResponse) (hk2 : Bool) (n2 d2 : DeeplResponse),
      get_or_create_api_object
        (store ++ [mkEntry store payload hasKey nameSvc descSvc config])
        wire2 hk2 n2 d2 name2 config =
        ⟨.ok (mkEntry store payload hasKey nameSvc descSvc config),
         store ++ [mkEntry store payload hasKey nameSvc descSvc config], 0, 0⟩ := by
  have hany : store.any (fun e => e.dnd_api_id == payload.index) = false := by
    rw [hecho]
    exact any_eq_false_of_find?_eq_none store _ hmiss
  refine ⟨get_or_create_miss_success store payload hasKey nameSvc descSvc
      request_name config hmiss hany, by simp [mkEntry, hecho], ?_⟩
  intro wire2 hk2 n2 d2
  have hfind2 : get_by_dnd_api_id
      (store ++ [mkEntry store payload hasKey nameSvc descSvc config])
      (normalize_name name2) =
      some (mkEntry store payload hasKey nameSvc descSvc config) := by
    simp only [get_by_dnd_api_id] at hmiss ⊢
    rw [hsame, List.find?_append, hmiss]
    simp [mkEntry, hecho]
  simp only [get_or_create_api_object, get_or_create_core]
  rw [hfind2]

/-- Witness for the amended C6 with an echoing payload. -/
theorem C6_external_id_echo_gives_cache_hit_witness :
    get_or_create_api_object []
      (.ok ⟨"fire-bolt", "Fire Bolt", ["A flame."], [], 0, "1 action",
        "120 feet", ["V", "S"], "Instantaneous", "Evocation"⟩)
      true (.ok "Feuerblitz") (.ok "Eine Flamme.") "Fire Bolt"
      ⟨"Spell", "spells", none⟩ =
      ⟨.ok (mkEntry [] ⟨"fire-bolt", "Fire Bolt", ["A flame."], [], 0,
          "1 action", "120 feet", ["V", "S"], "Instantaneous", "Evocation"⟩
          true (.ok "Feuerblitz") (.ok "Eine Flamme.") ⟨"Spell", "spells", none⟩),
       [mkEntry [] ⟨"fire-bolt", "Fire Bolt", ["A flame."], [], 0,
          "1 action", "120 feet", ["V", "S"], "Instantaneous", "Evocation"⟩
          true (.ok "Feuerblitz") (.ok "Eine Flamme.") ⟨"Spell", "spells", none⟩],
       1, 2⟩ :=
  (C6_external_id_echo_gives_cache_hit [] _ true _ _ "Fire Bolt" "FIRE BOLT" _
    (by rfl) (by decide) (by decide)).1

/-- C7: when the translation service is unavailable — the DeepL key is
unconfigured, or both DeepL requests fail — the miss-path resolution built
on `src/utils/dnd_api_client.py` still persists the new entry and returns
it; the German fields carry the placeholder markers
"Übersetzung nicht verfügbar." / "Übersetzung fehlgeschlagen." instead of a
translation. (This resolver variant never hard-fails on translator
unavailability; the create succeeds.) -/
theorem C7_translator_unavailable_still_persists
    (store : List ApiEntry) (payload : ApiPayload) (hasKey : Bool)
    (nameSvc descSvc : DeeplResponse) (request_name : String)
    (config : APIObjectConfig)
    (hmiss : get_by_dnd_api_id store (normalize_name request_name) = none)
    (hany : store.any (fun e => e.dnd_api_id == payload.index) = false)
    (hdown : hasKey = false ∨ (nameSvc = .reqError ∧ descSvc = .reqError)) :
    get_or_create_api_object store (.ok payload) hasKey nameSvc descSvc
      request_name config =
      ⟨.ok (mkEntry store payload hasKey nameSvc descSvc config),
       store ++ [mkEntry store payload hasKey nameSvc descSvc config], 1, 2⟩ ∧
    ((mkEntry store payload hasKey nameSvc descSvc config).name_de =
        "Übersetzung nicht verfügbar." ∨
      (mkEntry store payload hasKey nameSvc descSvc config).name_de =
        "Übersetzung fehlgeschlagen.") ∧
    ((mkEntry store payload hasKey nameSvc descSvc config).description_de =
        "Übersetzung nicht verfügbar." ∨
      (mkEntry store payload hasKey nameSvc descSvc config).description_de =
        "Übersetzung fehlgeschlagen.") := by
  refine ⟨get_or_create_miss_success store payload hasKey nameSvc descSvc
      request_name config hmiss hany, ?_, ?_⟩
  · rcases hdown with hk | ⟨hn, _⟩
    · left
      simp [mkEntry, translate_text_with_deepl, hk]
    · cases hk : hasKey with
      | false => left; simp [mkEntry, translate_text_with_deepl]
      | true =>
        by_cases h0 : payload.name = ""
        · left; simp [mkEntry, translate_text_with_deepl, h0]
        · right; simp [mkEntry, translate_text_with_deepl, hn, h0]
  · rcases hdown with hk | ⟨_, hd⟩
    · left
      simp [mkEntry, translate_text_with_deepl, hk]
    · cases hk : hasKey with
      | false => left; simp [mkEntry, translate_text_with_deepl]
      | true =>
        by_cases h0 : String.intercalate "\n" payload.desc = ""
        · left; simp [mkEntry, translate_text_with_deepl, h0]
        · right; simp [mkEntry, translate_text_with_deepl, hd, h0]

/-- Witness for C7 with an unconfigured DeepL key. -/
theorem C7_translator_unavailable_still_persists_witness :
    get_or_create_api_object []
      (.ok ⟨"club", "Club", ["A club."], [], 0, "", "", [], "", ""⟩)
      false (.ok "x") (.ok "y") "Club" ⟨"Item", "equipment", none⟩ =
      ⟨.ok (mkEntry [] ⟨"club", "Club", ["A club."], [], 0, "", "", [], "", ""⟩
          false (.ok "x") (.ok "y") ⟨"Item", "equipment", none⟩),
       [mkEntry [] ⟨"club", "Club", ["A club."], [], 0, "", "", [], "", ""⟩
          false (.ok "x") (.ok "y") ⟨"Item", "equipment", none⟩], 1, 2⟩ ∧
    (mkEntry [] ⟨"club", "Club", ["A club."], [], 0, "", "", [], "", ""⟩
        false (.ok "x") (.ok "y") ⟨"Item", "equipment", none⟩).name_de =
      "Übersetzung nicht verfügbar." :=
  have h := C7_translator_unavailable_still_persists [] _ false (.ok "x")
    (.ok "y") "Club" ⟨"Item", "equipment", none⟩ (by rfl) (by rfl) (Or.inl rfl)
  ⟨h.1, by rfl⟩

/-- C9 fails on the code for one boundary payload: the addendum branch in
`create_spell_from_api` tests the truthiness of the joined higher-level
string, so the non-empty list `[""]` joins to the empty string and no
addendum is appended to either description. -/
theorem C9_higher_level_counterexample :
    create_spell_descriptions (fun s => s)
      ⟨"i", "n", ["a"], [""], 0, "", "", [], "", ""⟩ = ("a", "a") ∧
    ([""] : List String) ≠ ([] : List String) :=
  ⟨rfl, by decide⟩

/-- C9 amended: the stored English description starts from the payload's
`desc` fragments joined with newline, and whenever the joined
`higher_level` text is non-empty (in particular for any list with at least
one non-empty fragment) the addendum is appended to both descriptions
under the labeled headings ("Higher Levels:" / the source file's literal
"HÃ¶here Grade:"), the German addendum being a separate translation of the
higher-level source text; when the joined text is empty no addendum is
appended. -/
theorem C9_description_assembly_amended (tr : String → String)
    (api_data : ApiPayload) :
    (String.intercalate "\n" api_data.higher_level ≠ "" →
      create_spell_descriptions tr api_data =
        (String.intercalate "\n" api_data.desc ++ "\n\nHigher Levels:\n" ++
           String.intercalate "\n" api_data.higher_level,
         tr (String.intercalate "\n" api_data.desc) ++ "\n\nHÃ¶here Grade:\n" ++
           tr (String.intercalate "\n" api_data.higher_level))) ∧
    (String.intercalate "\n" api_data.higher_level = "" →
      create_spell_descriptions tr api_data =
        (String.intercalate "\n" api_data.desc,
         tr (String.intercalate "\n" api_data.desc))) := by
  constructor <;> intro h <;> simp [create_spell_descriptions, h]

/-- Witness for the amended C9 with a non-empty higher-level fragment. -/
theorem C9_description_assembly_amended_witness :
    create_spell_descriptions (fun s => String.append "DE:" s)
      ⟨"fire-bolt", "Fire Bolt", ["A", "B"], ["More damage."], 0, "", "",
        [], "", ""⟩ =
      ("A\nB\n\nHigher Levels:\nMore damage.",
       "DE:A\nB\n\nHÃ¶here Grade:\nDE:More damage.") :=
  (C9_description_assembly_amended (fun s => String.append "DE:" s)
    ⟨"fire-bolt", "Fire Bolt", ["A", "B"], ["More damage."], 0, "", "",
      [], "", ""⟩).1 (by decide)

/-- C10: the three list-all endpoints raise an `HTTPException` with status
code 204 when no matching rows exist, and otherwise return the non-empty
row list — a successful response is never the empty collection. -/
theorem C10_list_all_never_returns_empty :
    (∀ s : List ApiEntry, s = [] →
      get_all_spells s = .error ⟨204, "No spells found."⟩) ∧
    (∀ s : List ApiEntry, s = [] →
      get_all_items s = .error ⟨204, "No items found."⟩) ∧
    (∀ (store : List Character) (uid : Nat),
      store.filter (fun c => c.user_id == uid) = [] →
      get_all_characters store uid =
        .error ⟨204, "No characters found for this user."⟩) ∧
    (∀ (s l : List ApiEntry), get_all_spells s = .ok l → l ≠ []) ∧
    (∀ (s l : List ApiEntry), get_all_items s = .ok l → l ≠ []) ∧
    (∀ (store : List Character) (uid : Nat) (l : List Character),
      get_all_characters store uid = .ok l → l ≠ []) := by
  refine ⟨?_, ?_, ?_, ?_, ?_, ?_⟩
  · intro s h; subst h; rfl
  · intro s h; subst h; rfl
  · intro store uid h
    unfold get_all_characters
    simp [h]
  · intro s l h
    unfold get_all_spells at h
    split at h
    · exact Except.noConfusion h
    next he =>
      injection h with h2
      subst h2
      simpa [List.isEmpty_iff] using he
  · intro s l h
    unfold get_all_items at h
    split at h
    · exact Except.noConfusion h
    next he =>
      injection h with h2
      subst h2
      simpa [List.isEmpty_iff] using he
  · intro store uid l h
    simp only [get_all_characters] at h
    split at h
    · exact Except.noConfusion h
    next he =>
      injection h with h2
      subst h2
      simpa [List.isEmpty_iff] using he

/-- Witness for C10 at empty and singleton stores. -/
theorem C10_list_all_never_returns_empty_witness :
    get_all_spells [] = .error ⟨204, "No spells found."⟩ ∧
    get_all_characters [⟨1, 10⟩] 99 =
      .error ⟨204, "No characters found for this user."⟩ ∧
    ([⟨1, "c", "Club", "Keule", "", "", []⟩] : List ApiEntry) ≠ [] :=
  ⟨C10_list_all_never_returns_empty.1 [] rfl,
   C10_list_all_never_returns_empty.2.2.1 [⟨1, 10⟩] 99 (by decide),
   C10_list_all_never_returns_empty.2.2.2.1
     [⟨1, "c", "Club", "Keule", "", "", []⟩]
     [⟨1, "c", "Club", "Keule", "", "", []⟩] (by rfl)⟩

end DndCompanion
